import Mathlib

/-!
Verification of the acai-truck-delivery-bot order conversation flow.

This file gives a shallow embedding of the order-conversation state machine
and its helpers (src/handlers/order_flow.py, src/handlers/menu_helpers.py,
src/handlers/payment_handler.py, src/menu.py, src/utils.py) and proves or
refutes the specification claims about them.

Modelling conventions:
* Python dicts with known string keys become records whose fields are
  `Option`-valued when the code reads them with `dict.get`.
* The per-user `context.user_data` dict is the `UserData` record; a `none`
  field models an absent key and `context.user_data.clear()` is `UserData.empty`.
* Backend calls (Supabase, the JSON fallback files, Telegram transport) are
  inputs collected in `Backend`/`PaymentBackend`; an exception raised by a
  backend call is an explicit outcome constructor.
* Decimal prices become `ℚ`; Python ints become `Int` (or `Nat` for indices).
* Outbound messages are modelled as the list of sent text strings where a
  claim depends on them; pure presentation (inline keyboard markup, the
  cosmetic `display_label`/`display_time` fields written by
  `_format_datetime_label`, and Markdown rendering) is not modelled.
-/

namespace AcaiBot

/-- A menu option value as it occurs in the Python data: either a plain
string label, or a dict with optional `name`/`price` keys (first-group
options carry prices, read with `.get('name','')` / `.get('price',0)`). -/
inductive MenuValue where
  | str (s : String)
  | dict (name : Option String) (price : Option ℚ)
  deriving DecidableEq

/-- Python truthiness of a menu value: the empty string and the empty dict
are falsy, everything else is truthy. -/
def MenuValue.truthy : MenuValue → Bool
  | .str s => s ≠ ""
  | .dict n p => n.isSome || p.isSome

/-- The text Python string conversion produces for a menu value inside an
f-string: `str` values render as themselves, dict values as a Python dict
literal (prices shown in exact rational notation rather than float
notation; no claim depends on the digits of that rendering). -/
def MenuValue.pyStr : MenuValue → String
  | .str s => s
  | .dict none none => "\x7b\x7d"
  | .dict (some n) none => "\x7b\x27name\x27: \x27" ++ n ++ "\x27\x7d"
  | .dict none (some p) => "\x7b\x27price\x27: " ++ toString p ++ "\x7d"
  | .dict (some n) (some p) =>
      "\x7b\x27name\x27: \x27" ++ n ++ "\x27, \x27price\x27: " ++ toString p ++ "\x7d"

/-- Python `a or b` where `a` was read from a dict with `.get` (so `a` is
`none` for a missing key): `None` and `""` are falsy. -/
def pyOrStr (a : Option String) (b : String) : String :=
  match a with
  | some s => if s = "" then b else s
  | none => b

/-- Python truthiness test `if context.user_data.get(k):` for a string key. -/
def pyTruthy (o : Option String) : Bool :=
  match o with
  | some s => s ≠ ""
  | none => false

/-- Deletion of every non-overlapping occurrence of `pat`, scanning left to
right; the recursion is fuelled by the input length (each step consumes at
least one character, so `s.length` fuel always suffices). -/
def stripAllFuel (pat : List Char) : Nat → List Char → List Char
  | 0, s => s
  | _ + 1, [] => []
  | fuel + 1, c :: cs =>
    if pat.isPrefixOf (c :: cs) then stripAllFuel pat fuel ((c :: cs).drop pat.length)
    else c :: stripAllFuel pat fuel cs

/-- Python `s.replace(pat, "")`: remove every non-overlapping occurrence of
`pat`, left to right (both call sites in the flow replace with the empty
string). -/
def pyReplace (s pat : String) : String :=
  if pat.data = [] then s else ⟨stripAllFuel pat.data s.data.length s.data⟩

/-- Python `s.strip()`: drop leading and trailing whitespace. -/
def pyStrip (s : String) : String :=
  ⟨((s.data.dropWhile Char.isWhitespace).reverse.dropWhile Char.isWhitespace).reverse⟩

/-- Numeric value of a run of decimal digit characters. -/
def digitsVal (ds : List Char) : Nat :=
  ds.foldl (fun n c => 10 * n + (c.toNat - '0'.toNat)) 0

/-- Python `int(s)`: optional surrounding whitespace, optional sign, then a
non-empty digit run; anything else raises ValueError (`none`). -/
def pyInt (s : String) : Option Int :=
  let cs := ((s.data.dropWhile Char.isWhitespace).reverse.dropWhile Char.isWhitespace).reverse
  match cs with
  | '-' :: rest =>
      if rest ≠ [] ∧ rest.all (·.isDigit) then some (-(digitsVal rest : Int)) else none
  | '+' :: rest =>
      if rest ≠ [] ∧ rest.all (·.isDigit) then some (digitsVal rest : Int) else none
  | rest =>
      if rest ≠ [] ∧ rest.all (·.isDigit) then some (digitsVal rest : Int) else none

/-- A raw menu group as returned by the datastore (db.get_menu_groups),
before sanitization: every field may be missing. -/
structure RawMenuGroup where
  id : Option String
  key : Option String
  title : Option String
  options : Option (List MenuValue)
  deriving DecidableEq

/-- A sanitized menu group as produced by get_menu_data (src/menu.py) and
stored in the conversation menu cache. Fields stay `Option`-valued because
the downstream helpers still read them with `dict.get` defaults. -/
structure MenuGroup where
  id : Option String
  key : Option String
  title : Option String
  options : List MenuValue
  deriving DecidableEq

/-- The hardcoded default menu used when db.get_menu_groups raises
(src/menu.py lines 25-42). -/
def defaultMenuGroups : List RawMenuGroup :=
  [ { id := some "flavor", key := some "flavor", title := some "Menu Flavors",
      options := some [.dict (some "Classic Acai") (some 8),
                       .dict (some "Protein Acai") (some 9),
                       .dict (some "Vegan Acai") (some (8.5 : ℚ))] },
    { id := some "sauce", key := some "sauce", title := some "Sauce Options",
      options := some [.str "Honey", .str "Peanut Butter", .str "Nutella", .str "No Sauce"] } ]

/-- The sanitizing loop of get_menu_data (src/menu.py lines 44-55): walks the
groups with their enumeration index, drops any group whose options list is
missing or empty, and fills id/key/title defaults (`or`-chains, so empty
strings are also replaced). -/
def sanitizeMenuGroups : List RawMenuGroup → Nat → List MenuGroup
  | [], _ => []
  | g :: gs, index =>
      let options := g.options.getD []
      if options = [] then sanitizeMenuGroups gs (index + 1)
      else
        { id := some (pyOrStr g.id ("group_" ++ toString index)),
          key := some (pyOrStr g.key (pyOrStr g.id ("group_" ++ toString index))),
          title := some (pyOrStr g.title ("Option Group " ++ toString (index + 1))),
          options := options } :: sanitizeMenuGroups gs (index + 1)

/-- The single-group, single-option fallback substituted when every group was
dropped (src/menu.py lines 57-67). -/
def fallbackSingleGroup : MenuGroup :=
  { id := some "flavor", key := some "flavor", title := some "Menu Flavors",
    options := [.dict (some "Classic Acai") (some 8)] }

/-- get_menu_data (src/menu.py lines 17-72). The backend result is
`some gs` when db.get_menu_groups returned `gs`, and `none` when it raised
(which selects the hardcoded default). Returns the `groups` entry of the
menu dict. -/
def get_menu_data (backendGroups : Option (List RawMenuGroup)) : List MenuGroup :=
  let groups :=
    match backendGroups with
    | some gs => gs
    | none => defaultMenuGroups
  let sanitized := sanitizeMenuGroups groups 0
  if sanitized = [] then [fallbackSingleGroup] else sanitized

/-- One entry of `user_data['menu_selections']`
(src/handlers/menu_helpers.py lines 46-50). -/
structure Selection where
  title : String
  value : MenuValue
  key : String
  deriving DecidableEq

/-- `choices.get(idx)` on the `menu_choices` dict, modelled as an
association list keyed by group index. -/
def dictGet (d : List (Nat × MenuValue)) (k : Nat) : Option MenuValue :=
  (d.find? (fun p => p.1 = k)).map (·.2)

/-- `choices[group_index] = selected_option` on the `menu_choices` dict:
overwrite an existing key, otherwise append. -/
def dictSet (d : List (Nat × MenuValue)) (k : Nat) (v : MenuValue) : List (Nat × MenuValue) :=
  if d.any (fun p => p.1 = k) then d.map (fun p => if p.1 = k then (k, v) else p)
  else d ++ [(k, v)]

/-- The selection record appended for group `g` at index `idx` with recorded
choice `v` (src/handlers/menu_helpers.py lines 46-50):
title from `.get('title', f"Option \x7bidx+1\x7d")`, key from the
`get('key') or get('id') or f"option_\x7bidx\x7d"` chain. -/
def selectionOf (g : MenuGroup) (idx : Nat) (v : MenuValue) : Selection :=
  { title := g.title.getD ("Option " ++ toString (idx + 1)),
    value := v,
    key := pyOrStr g.key (pyOrStr g.id ("option_" ++ toString idx)) }

/-- The selection-building loop of accumulate_menu_selections
(src/handlers/menu_helpers.py lines 43-50): for each group index in order,
append a selection when a truthy choice is recorded for it. -/
def collectSelections : List MenuGroup → (Nat → Option MenuValue) → Nat → List Selection
  | [], _, _ => []
  | g :: gs, choices, idx =>
      (match choices idx with
       | some v => if v.truthy then [selectionOf g idx v] else []
       | none => []) ++ collectSelections gs choices (idx + 1)

/-- The `flavor` convenience value written at the end of
accumulate_menu_selections (src/handlers/menu_helpers.py lines 53-58): the
raw group-0 selection value when selections exist, else "Classic Acai". -/
def deriveFlavor : List Selection → MenuValue
  | [] => .str "Classic Acai"
  | s :: _ => s.value

/-- The `sauce` convenience value (src/handlers/menu_helpers.py lines 55-59):
the semicolon-join of `f"\x7btitle\x7d: \x7bvalue\x7d"` over selections after the
first; when that list is empty the conditional expression falls back to the
raw group-0 value, and to "" when there are no selections at all. -/
def deriveSauce : List Selection → MenuValue
  | [] => .str ""
  | s :: rest =>
      let extras := rest.map (fun sel => sel.title ++ ": " ++ sel.value.pyStr)
      if extras = [] then s.value else .str (String.intercalate "; " extras)

/-- A cart line item (src/handlers/order_flow.py lines 372-378). `flavor` and
`sauce` keep the `MenuValue` type because the flow stores the raw selection
values there. -/
structure CartItem where
  flavor : MenuValue
  sauce : MenuValue
  quantity : Int
  unit_price : ℚ
  item_total : ℚ
  deriving DecidableEq

/-- `sum(item['item_total'] for item in cart)`
(src/handlers/order_flow.py line 383). -/
def cartTotalPrice (cart : List CartItem) : ℚ :=
  (cart.map (·.item_total)).sum

/-- `sum(item['quantity'] for item in cart)`
(src/handlers/order_flow.py line 384). -/
def cartTotalQuantity (cart : List CartItem) : Int :=
  (cart.map (·.quantity)).sum

/-- A registered user profile as stored in `user_data['user_info']`. -/
structure UserInfo where
  name : String
  handle : String
  phone : String
  deriving DecidableEq

/-- A user row from db.get_user: every column may be NULL. -/
structure SupaUser where
  name : Option String
  telegram_handle : Option String
  phone : Option String
  deriving DecidableEq

/-- A delivery session as stored into `user_data['delivery']`. The id is the
stringified form used in callback data; the cosmetic display fields the
handler adds are not modelled. -/
structure Delivery where
  id : String
  location : Option String
  delivery_datetime : Option String
  deriving DecidableEq

/-- A pickup store dict (only the fields the payment stage reads). -/
structure PickupStore where
  name : String
  id : Option Int
  deriving DecidableEq

/-- The per-(chat, user) `context.user_data` dict, as a record of every key
the delivery order flow and payment stage write; `none` models an absent
key. -/
structure UserData where
  order_type : Option String := none
  menu_groups : Option (List MenuGroup) := none
  menu_pricing : Option (List (String × ℚ)) := none
  order_message_id : Option Nat := none
  delivery : Option Delivery := none
  user_info : Option UserInfo := none
  name : Option String := none
  menu_index : Option Nat := none
  menu_choices : Option (List (Nat × MenuValue)) := none
  menu_selections : Option (List Selection) := none
  flavor : Option MenuValue := none
  sauce : Option MenuValue := none
  main_option_price : Option ℚ := none
  cart : Option (List CartItem) := none
  total_price : Option ℚ := none
  total_quantity : Option Int := none
  quantity : Option Int := none
  unit_price : Option ℚ := none
  order_id : Option String := none
  pickup_store : Option PickupStore := none
  pickup_date_display : Option String := none
  pickup_time_display : Option String := none
  deriving DecidableEq

/-- `context.user_data.clear()`: every key absent. -/
def UserData.empty : UserData := {}

/-- The conversation states of the order flow
(src/handlers/order_flow.py line 38). -/
inductive ConvState where
  | SELECT_DELIVERY
  | REGISTER_NAME
  | REGISTER_PHONE
  | MENU_SELECTION
  | QUANTITY
  | ADD_MORE_ITEMS
  | CONFIRM
  | PAYMENT
  deriving DecidableEq

/-- A handler return value: the next conversation state, or
ConversationHandler.END (`stop`). -/
inductive FlowResult where
  | state (s : ConvState)
  | stop
  deriving DecidableEq

/-- The environment of external results a handler invocation observes:
the datastore calls, the JSON fallbacks and the Telegram user identity.
`menuBackend = none` models db.get_menu_groups raising. -/
structure Backend where
  menuBackend : Option (List RawMenuGroup) := none
  activeDeliveries : List Delivery := []
  deliveryById : String → Option Delivery := fun _ => none
  supaUser : Option SupaUser := none
  localUsers : List (String × UserInfo) := []
  tgUsername : Option String := none
  userId : String := ""

/-- cache_menu_data (src/handlers/menu_helpers.py lines 8-14): force-reload
the menu and store `menu['groups']` under `menu_groups`; the menu dict has
no `pricing` key, so `menu.get('pricing', \x7b\x7d)` always stores the empty
dict. -/
def cache_menu_data (b : Backend) (ud : UserData) : UserData :=
  { ud with menu_groups := some (get_menu_data b.menuBackend),
            menu_pricing := some [] }

/-- get_menu_groups (src/handlers/menu_helpers.py lines 17-22). When the
cached list is absent or empty it calls cache_menu_data, but then reads key
`menu_groups` from the *returned menu dict* — whose only key is `groups` —
so the reload branch always yields `[]` and overwrites the cache with it. -/
def get_menu_groups (b : Backend) (ud : UserData) : UserData × List MenuGroup :=
  let cached := ud.menu_groups.getD []
  if cached = [] then
    let ud₁ := cache_menu_data b ud
    ({ ud₁ with menu_groups := some [] }, [])
  else (ud, cached)

/-- reset_menu_selection (src/handlers/menu_helpers.py lines 25-28). -/
def reset_menu_selection (ud : UserData) : UserData :=
  { ud with menu_index := some 0, menu_choices := some [], menu_selections := some [] }

/-- accumulate_menu_selections (src/handlers/menu_helpers.py lines 39-59):
rebuild `menu_selections` from the cached groups and the recorded choices,
then derive the `flavor` and `sauce` convenience values. -/
def accumulate_menu_selections (b : Backend) (ud : UserData) : UserData :=
  let p := get_menu_groups b ud
  let choices := p.1.menu_choices.getD []
  let selections := collectSelections p.2 (dictGet choices) 0
  { p.1 with menu_selections := some selections,
             flavor := some (deriveFlavor selections),
             sauce := some (deriveSauce selections) }

/-- An inline keyboard button: the label passed to InlineKeyboardButton and
its callback data. The label keeps type `MenuValue` because
build_menu_keyboard passes the raw option value. -/
structure InlineButton where
  label : MenuValue
  callback_data : String
  deriving DecidableEq

/-- build_menu_keyboard (src/handlers/menu_helpers.py lines 31-36): one
button per option, labelled with the option value itself, then a cancel
button. -/
def build_menu_keyboard (group : MenuGroup) (index : Nat) : List InlineButton :=
  (group.options.enum.map
    (fun p => ⟨p.2, "menu_" ++ toString index ++ "_" ++ toString p.1⟩))
  ++ [⟨.str "❌ Cancel", "cancel"⟩]

/-- The string result of prompt_menu_option_via_query/_message. -/
inductive PromptResult where
  | quantity
  | menu
  deriving DecidableEq

/-- prompt_menu_option_via_query/_message
(src/handlers/menu_helpers.py lines 62-99): when the cursor passed the last
group, fold the selections and hand over to the quantity prompt; otherwise
present the group at the cursor. Message sending is not modelled. -/
def prompt_menu_option (b : Backend) (ud : UserData) : UserData × PromptResult :=
  let p := get_menu_groups b ud
  let index := p.1.menu_index.getD 0
  if p.2.length ≤ index then (accumulate_menu_selections b p.1, .quantity)
  else (p.1, .menu)

/-- start_menu_selection_from_query/_message
(src/handlers/menu_helpers.py lines 102-109). -/
def start_menu_selection (b : Backend) (ud : UserData) : UserData × PromptResult :=
  prompt_menu_option b (reset_menu_selection ud)

/-- Mapping of the helper result onto the conversation state returned by the
callers (`QUANTITY if result == "quantity" else MENU_SELECTION`). -/
def menuResultState : PromptResult → ConvState
  | .quantity => .QUANTITY
  | .menu => .MENU_SELECTION

/-- src/constants.py: the reserved in-order control keywords. -/
def CANCEL_ORDER_BUTTON_TEXT : String := "❌ Cancel Order"

/-- src/constants.py: the restart keyword. -/
def RESTART_ORDER_BUTTON_TEXT : String := "🔄 Restart Order"

/-- cancel_payment (src/handlers/payment_handler.py lines 440-448): clear the
context and end the conversation. -/
def cancel_payment (ud : UserData) : UserData × FlowResult :=
  let _ := ud
  (UserData.empty, .stop)

/-- cancel_order (src/handlers/order_flow.py lines 525-538): with a truthy
`order_id` (mid-payment) defer to cancel_payment, else clear the context and
end. -/
def cancel_order (ud : UserData) : UserData × FlowResult :=
  if pyTruthy ud.order_id then cancel_payment ud
  else (UserData.empty, .stop)

/-- _maybe_handle_control_text (src/handlers/order_flow.py lines 76-90):
intercept the reserved cancel/restart keywords; `none` means the text is not
a control keyword and normal processing continues. -/
def maybe_handle_control_text (ud : UserData) (text : String) : Option (UserData × FlowResult) :=
  if text = CANCEL_ORDER_BUTTON_TEXT then some (cancel_order ud)
  else if text = RESTART_ORDER_BUTTON_TEXT then some (UserData.empty, .stop)
  else none

/-- The apology sent when no active delivery session exists
(src/handlers/order_flow.py lines 106-110). -/
def noActiveDeliveriesMsg : String :=
  "⚠️ Sorry, there are no active delivery sessions at the moment.\nPlease check back later or contact the admin team."

/-- The delivery-selection prompt (src/handlers/order_flow.py lines 124-129). -/
def selectDeliveryPrompt : String :=
  "🚚 **Select Delivery Session:**\n\nChoose when you\x27d like your order delivered:"

/-- start_order (src/handlers/order_flow.py lines 93-140): clear any previous
context, cache the menu, mark the order type; abort with the apology when no
active delivery session exists, else send the session keyboard and record the
prompt message id. `msgId` is the transport-assigned id of that prompt. The
session list is the result of _load_active_delivery_sessions, whose body is
datastore/JSON-fallback glue and is supplied by the environment. -/
def start_order (b : Backend) (msgId : Nat) (ud : UserData) : UserData × List String × FlowResult :=
  let _ := ud
  let ud₁ := cache_menu_data b UserData.empty
  let ud₂ := { ud₁ with order_type := some "delivery" }
  if b.activeDeliveries = [] then (ud₂, [noActiveDeliveriesMsg], .stop)
  else ({ ud₂ with order_message_id := some msgId }, [selectDeliveryPrompt], .state .SELECT_DELIVERY)

/-- select_delivery (src/handlers/order_flow.py lines 143-214): cancel ends
without touching the context; otherwise look the session up, end when it is
gone, store it, and branch on registration (Supabase profile, then the local
users.json cache, else registration capture). -/
def select_delivery (b : Backend) (ud : UserData) (data : String) : UserData × FlowResult :=
  if data = "cancel" then (ud, .stop)
  else
    let delivery_id := pyReplace data "delivery_"
    match b.deliveryById delivery_id with
    | none => (ud, .stop)
    | some d =>
      let ud₁ := { ud with delivery := some d }
      match b.supaUser with
      | some su =>
        let info : UserInfo :=
          { name := pyOrStr su.name "Unknown",
            handle := pyOrStr su.telegram_handle (pyOrStr b.tgUsername ""),
            phone := pyOrStr su.phone "Unknown" }
        let p := start_menu_selection b { ud₁ with user_info := some info }
        (p.1, .state (menuResultState p.2))
      | none =>
        match (b.localUsers.find? (fun q => q.1 = b.userId)).map (·.2) with
        | some info =>
          let p := start_menu_selection b { ud₁ with user_info := some info }
          (p.1, .state (menuResultState p.2))
        | none => (ud₁, .state .REGISTER_NAME)

/-- register_name (src/handlers/order_flow.py lines 217-238): control
keywords first, then the ≥ 2 characters validation, then store the name and
move to the phone capture. -/
def register_name (ud : UserData) (rawText : String) : UserData × FlowResult :=
  let text := pyStrip rawText
  match maybe_handle_control_text ud text with
  | some r => r
  | none =>
    if text.length < 2 then (ud, .state .REGISTER_NAME)
    else ({ ud with name := some text }, .state .REGISTER_PHONE)

/-- register_phone (src/handlers/order_flow.py lines 241-288): control
keywords first, then the ≥ 8 characters validation, then persist the profile
(failure tolerated), store `user_info` and start menu selection. Reading
`context.user_data['name']` raises KeyError when absent, modelled as
`none`. -/
def register_phone (b : Backend) (ud : UserData) (rawText : String) : Option (UserData × FlowResult) :=
  let text := pyStrip rawText
  match maybe_handle_control_text ud text with
  | some r => some r
  | none =>
    if text.length < 8 then some (ud, .state .REGISTER_PHONE)
    else
      match ud.name with
      | none => none
      | some nm =>
        let info : UserInfo := { name := nm, handle := b.tgUsername.getD "N/A", phone := text }
        let p := start_menu_selection b { ud with user_info := some info }
        some (p.1, .state (menuResultState p.2))

/-- Read a leading run of decimal digits (at least one), returning its value
and the remaining characters; the `\d+` pieces of the callback regex. -/
def takeDigits (cs : List Char) : Option (Nat × List Char) :=
  let ds := cs.takeWhile (·.isDigit)
  if ds = [] then none
  else some (ds.foldl (fun n c => 10 * n + (c.toNat - '0'.toNat)) 0, cs.dropWhile (·.isDigit))

/-- `re.match(r"menu_(\d+)_(\d+)", data)` (src/handlers/order_flow.py
line 300): a prefix match, so trailing characters after the second digit run
are ignored. -/
def parseMenuCallback (data : String) : Option (Nat × Nat) :=
  match data.data with
  | 'm' :: 'e' :: 'n' :: 'u' :: '_' :: rest =>
    match takeDigits rest with
    | some (gi, '_' :: rest₂) =>
      match takeDigits rest₂ with
      | some (oi, _) => some (gi, oi)
      | none => none
    | _ => none
  | _ => none

/-- handle_menu_selection (src/handlers/order_flow.py lines 291-331): cancel
ends without touching the context; an unparsable or stale callback re-prompts
in MENU_SELECTION; otherwise record the choice, capture price and flavor for
group 0, advance the cursor past the chosen group and re-prompt. -/
def handle_menu_selection (b : Backend) (ud : UserData) (data : String) : UserData × FlowResult :=
  if data = "cancel" then (ud, .stop)
  else
    match parseMenuCallback data with
    | none => (ud, .state .MENU_SELECTION)
    | some (gi, oi) =>
      let p := get_menu_groups b ud
      if h : gi < p.2.length then
        let options := (p.2.get ⟨gi, h⟩).options
        if h₂ : oi < options.length then
          let sel := options.get ⟨oi, h₂⟩
          let choices := p.1.menu_choices.getD []
          let ud₂ := { p.1 with menu_choices := some (dictSet choices gi sel) }
          let ud₃ :=
            if gi = 0 then
              match sel with
              | .dict n pr =>
                  { ud₂ with main_option_price := some (pr.getD 0),
                             flavor := some (.str (n.getD "")) }
              | .str s =>
                  { ud₂ with main_option_price := some 0, flavor := some (.str s) }
            else ud₂
          let q := prompt_menu_option b { ud₃ with menu_index := some (gi + 1) }
          (q.1, .state (menuResultState q.2))
        else (p.1, .state .MENU_SELECTION)
      else (p.1, .state .MENU_SELECTION)

/-- add_item_to_cart (src/handlers/order_flow.py lines 366-389): initialise
the cart when missing, append the line item with `item_total = quantity *
unit_price`, then recompute both totals as sums over the whole cart. -/
def add_item_to_cart (ud : UserData) (flavor sauce : MenuValue) (quantity : Int) (unit_price : ℚ) : UserData :=
  let cart₀ := ud.cart.getD []
  let item : CartItem :=
    { flavor := flavor, sauce := sauce, quantity := quantity,
      unit_price := unit_price, item_total := (quantity : ℚ) * unit_price }
  let cart₁ := cart₀ ++ [item]
  { ud with cart := some cart₁,
            total_price := some (cartTotalPrice cart₁),
            total_quantity := some (cartTotalQuantity cart₁) }

/-- Python `main_price or 0` on a number: 0 is falsy. -/
def pyOrQ (a b : ℚ) : ℚ := if a = 0 then b else a

/-- select_quantity (src/handlers/order_flow.py lines 334-363): cancel ends
without touching the context; otherwise `int(query.data.replace("qty_", ""))`
parses the quantity (`none` models the ValueError raised on a non-numeric
remainder), the unit price comes from `main_option_price` (reloading the menu
and defaulting to 8.0 when absent), the selections are folded, and the item
is appended to the cart before moving to ADD_MORE_ITEMS. -/
def select_quantity (b : Backend) (ud : UserData) (data : String) : Option (UserData × FlowResult) :=
  if data = "cancel" then some (ud, .stop)
  else
    match pyInt (pyReplace data "qty_") with
    | none => none
    | some quantity =>
      let p : UserData × ℚ :=
        match ud.main_option_price with
        | some mp => (ud, mp)
        | none =>
          let udc := cache_menu_data b ud
          (udc, udc.main_option_price.getD (8 : ℚ))
      let unit_price := pyOrQ p.2 0
      let ud₂ := accumulate_menu_selections b p.1
      let selections := ud₂.menu_selections.getD []
      let flavor := ud₂.flavor.getD
        (match selections with
         | s :: _ => s.value
         | [] => .str "Classic Acai")
      let sauce_text := ud₂.sauce.getD (.str "")
      some (add_item_to_cart ud₂ flavor sauce_text quantity unit_price, .state .ADD_MORE_ITEMS)

/-- handle_add_more_items (src/handlers/order_flow.py lines 423-443): cancel
ends without touching the context; "add_more" resets the selection map and
cursor (keeping the cart) and re-enters menu selection; "proceed_payment"
shows the confirmation summary and moves to CONFIRM; anything else stays. -/
def handle_add_more_items (b : Backend) (ud : UserData) (data : String) : UserData × FlowResult :=
  if data = "cancel" then (ud, .stop)
  else if data = "add_more" then
    let p := start_menu_selection b { ud with menu_choices := some [], menu_index := some 0 }
    (p.1, .state (menuResultState p.2))
  else if data = "proceed_payment" then (ud, .state .CONFIRM)
  else (ud, .state .ADD_MORE_ITEMS)

/-- A wall-clock instant at the resolution datetime.now() observes. -/
structure Timestamp where
  year : Nat
  month : Nat
  day : Nat
  hour : Nat
  minute : Nat
  second : Nat
  micro : Nat
  deriving DecidableEq

/-- Two-digit zero-padded decimal rendering (strftime %m/%d/%H/%M/%S),
faithful for field values below 100. -/
def pad2 (n : Nat) : List Char :=
  [Nat.digitChar (n / 10), Nat.digitChar (n % 10)]

/-- Four-digit zero-padded decimal rendering (strftime %Y), faithful for
years below 10000. -/
def pad4 (n : Nat) : List Char :=
  [Nat.digitChar (n / 1000), Nat.digitChar (n / 100 % 10),
   Nat.digitChar (n / 10 % 10), Nat.digitChar (n % 10)]

/-- generate_delivery_id (src/utils.py lines 98-100):
`datetime.now().strftime('%Y%m%d%H%M%S')` — the id is the second-resolution
timestamp; microseconds are not part of the format. -/
def generate_delivery_id (now : Timestamp) : String :=
  ⟨pad4 now.year ++ pad2 now.month ++ pad2 now.day
    ++ pad2 now.hour ++ pad2 now.minute ++ pad2 now.second⟩

/-- confirm_order (src/handlers/order_flow.py lines 483-507): cancel ends
without touching the context; any other callback generates the order id from
the current time, stores it and hands off to the payment stage. -/
def confirm_order (ud : UserData) (data : String) (now : Timestamp) : UserData × FlowResult :=
  if data = "cancel" then (ud, .stop)
  else ({ ud with order_id := some (generate_delivery_id now) }, .state .PAYMENT)

/-- request_payment_screenshot (src/handlers/order_flow.py lines 510-522):
text received while awaiting the screenshot honours the control keywords and
otherwise re-prompts in PAYMENT. -/
def request_payment_screenshot (ud : UserData) (rawText : String) : UserData × FlowResult :=
  let text := pyStrip rawText
  if text ≠ "" then
    match maybe_handle_control_text ud text with
    | some r => r
    | none => (ud, .state .PAYMENT)
  else (ud, .state .PAYMENT)

/-- The inbound event the payment intake stage receives: a photo or text. -/
inductive PaymentEvent where
  | photo
  | text (t : String)
  deriving DecidableEq

/-- Outcome of the receipt persistence block
(src/handlers/payment_handler.py lines 111-144): the remote upload returned a
url, returned None (local fallback path used), or something in the block
raised (caught, local fallback path used). -/
inductive UploadOutcome where
  | remote (url : String)
  | fallbackLocal
  | raised
  deriving DecidableEq

/-- Outcome of db.create_delivery_order: returned True, returned False, or
the surrounding try block raised before/at the call. -/
inductive CreateOrderOutcome where
  | success
  | failure
  | raised
  deriving DecidableEq

/-- External results observed by one receive_payment_screenshot invocation. -/
structure PaymentBackend where
  upload : UploadOutcome := .fallbackLocal
  userUpsertRaises : Bool := false
  createOrder : CreateOrderOutcome := .success
  pickupLogSuccess : Bool := false

/-- Return value of the payment intake handlers: stay in the screenshot-wait
state or end the conversation. -/
inductive PaymentResult where
  | awaiting
  | stop
  deriving DecidableEq

/-- Success confirmation (src/handlers/payment_handler.py lines 239-248). -/
def orderCompleteMsg (oid : String) : String :=
  "🎉 **Order Complete!**\n\nYour order has been logged successfully.\nOrder ID: `" ++ oid
    ++ "`\n\nWe\x27ll verify your payment and confirm your order soon.\nThank you for ordering! 🍧\n\nUse the buttons below to place another order or get help!"

/-- Apology sent when the order-creation call returns failure
(src/handlers/payment_handler.py lines 250-254): it names no order id. -/
def issueLoggingMsg : String :=
  "⚠️ There was an issue logging your order to the system. Your payment screenshot has been saved. Please contact the admin."

/-- Apology sent from the outer except branch
(src/handlers/payment_handler.py lines 256-263): it quotes the order id. -/
def errorProcessingMsg (oid : String) : String :=
  "⚠️ Error processing order. Please contact the admin with your order ID: `" ++ oid ++ "`"

/-- Pickup-variant success confirmation
(src/handlers/payment_handler.py lines 173-185). -/
def pickupCompleteMsg (oid store date time : String) : String :=
  "🎉 **Pickup Order Complete!**\n\nYour order has been logged successfully.\nOrder ID: `" ++ oid
    ++ "`\n\n**Pickup Details:**\n🏪 Store: " ++ store ++ "\n📅 Date: " ++ date ++ "\n🕐 Time: " ++ time
    ++ "\n\nWe\x27ll verify your payment and prepare your order.\nThank you! 🍧"

/-- The final reply of the order-logging try block
(src/handlers/payment_handler.py lines 146-263). A raise anywhere inside the
block — the user upsert, the order creation, or the pickup success-message
field accesses — lands in the except branch, whose apology quotes the order
id. The pickup sub-branch goes through log_pickup_order, which swallows its
own exceptions and reports a plain boolean. -/
def paymentFinalReply (pb : PaymentBackend) (ud : UserData) (oid : String) : String :=
  if pb.userUpsertRaises then errorProcessingMsg oid
  else if ud.order_type.getD "delivery" = "pickup" then
    if pb.pickupLogSuccess then
      match ud.pickup_store, ud.pickup_date_display, ud.pickup_time_display with
      | some store, some date, some time => pickupCompleteMsg oid store.name date time
      | _, _, _ => errorProcessingMsg oid
    else issueLoggingMsg
  else
    match pb.createOrder with
    | .success => orderCompleteMsg oid
    | .failure => issueLoggingMsg
    | .raised => errorProcessingMsg oid

/-- receive_payment_screenshot (src/handlers/payment_handler.py lines
83-268): non-photo input honours the control keywords or re-prompts; a photo
is acknowledged, persisted (remote with local fallback), the order record is
written, the outcome-dependent final reply is sent, and the context is
cleared unconditionally on exit. Returns (sent messages, context, result). -/
def receive_payment_screenshot (pb : PaymentBackend) (ud : UserData) (ev : PaymentEvent) :
    List String × UserData × PaymentResult :=
  match ev with
  | .text t =>
    let text := pyStrip t
    if text = CANCEL_ORDER_BUTTON_TEXT then
      (["❌ Payment cancelled. Your order was not submitted.\nUse the buttons below to start over!"],
       UserData.empty, .stop)
    else if text = RESTART_ORDER_BUTTON_TEXT then
      (["🔄 Order restarted. Tap **Order Now** to begin again!"], UserData.empty, .stop)
    else
      (["⚠️ Please upload an image (photo). Try again or /cancel."], ud, .awaiting)
  | .photo =>
    let oid := ud.order_id.getD "unknown"
    let _screenshot_url :=
      match pb.upload with
      | .remote u => u
      | .fallbackLocal => "data/payment_screenshots/" ++ oid ++ ".jpg"
      | .raised => "data/payment_screenshots/" ++ oid ++ ".jpg"
    (["✅ Payment screenshot received!", "⏳ Processing your order...",
      paymentFinalReply pb ud oid],
     UserData.empty, .stop)

/-- `sub in s` on strings (the claims about "the message includes the order
id" are stated with this). -/
def strContains (s sub : String) : Prop :=
  List.IsInfix sub.data s.data

instance (s sub : String) : Decidable (strContains s sub) :=
  List.decidableInfix sub.data s.data

/-- The quantity keyboard presented by prompt_quantity_via_query/_message
(src/handlers/menu_helpers.py lines 112-137): the fixed buttons 1-5 plus a
cancel button, as (label, callback_data) pairs. -/
def prompt_quantity_keyboard : List (String × String) :=
  ((List.range' 1 5).map (fun i => (toString i ++ " bowl(s)", "qty_" ++ toString i)))
    ++ [("❌ Cancel", "cancel")]

/-- The selections produced by a traversal that recorded the choices
`cs` for the groups `gs` in order, starting at group index `idx`. -/
def zipSelWith : List MenuGroup → List MenuValue → Nat → List Selection
  | g :: gs, v :: vs, idx => selectionOf g idx v :: zipSelWith gs vs (idx + 1)
  | _, _, _ => []

theorem collectSelections_total (gs : List MenuGroup) :
    ∀ (cs : List MenuValue) (f : Nat → Option MenuValue) (start : Nat),
      cs.length = gs.length →
      (∀ i, f (start + i) = cs[i]?) →
      (∀ v ∈ cs, v.truthy = true) →
      collectSelections gs f start = zipSelWith gs cs start := by
  induction gs with
  | nil =>
    intro cs f start hlen _ _
    cases cs with
    | nil => rfl
    | cons c cs' => simp at hlen
  | cons g gs ih =>
    intro cs f start hlen hf htr
    cases cs with
    | nil => simp at hlen
    | cons c cs' =>
      have h0 : f start = some c := by
        have := hf 0
        simpa using this
      have htrc : c.truthy = true := htr c (by simp)
      have hrec : collectSelections gs f (start + 1) = zipSelWith gs cs' (start + 1) := by
        apply ih cs' f (start + 1)
        · simpa using hlen
        · intro i
          have := hf (i + 1)
          have harith : start + (i + 1) = start + 1 + i := by omega
          rw [harith] at this
          simpa using this
        · intro v hv
          exact htr v (by simp [hv])
      simp [collectSelections, zipSelWith, h0, htrc, hrec]

theorem sanitize_options_ne_nil (raws : List RawMenuGroup) :
    ∀ (i : Nat) (g : MenuGroup), g ∈ sanitizeMenuGroups raws i → g.options ≠ [] := by
  induction raws with
  | nil => intro i g hg; simp [sanitizeMenuGroups] at hg
  | cons r rs ih =>
    intro i g hg
    by_cases h : r.options.getD [] = []
    · rw [sanitizeMenuGroups, if_pos h] at hg
      exact ih (i + 1) g hg
    · rw [sanitizeMenuGroups, if_neg h] at hg
      rcases List.mem_cons.mp hg with hhead | htail
      · rw [hhead]
        exact h
      · exact ih (i + 1) g htail

/-- C2: appending a cart item with quantity `q ≥ 1` and unit price `p ≥ 0`
to any cart increases `total_price` by exactly `q*p` and `total_quantity`
by exactly `q`, the appended item's `item_total` equals `q*p`, and both
stored totals equal the sums recomputed over the whole cart. -/
theorem C2_cart_append_totals (ud : UserData) (flavor sauce : MenuValue)
    (q : Int) (p : ℚ) (hq : 1 ≤ q) (hp : 0 ≤ p) :
    (add_item_to_cart ud flavor sauce q p).total_price
        = some (cartTotalPrice (ud.cart.getD []) + (q : ℚ) * p) ∧
    (add_item_to_cart ud flavor sauce q p).total_quantity
        = some (cartTotalQuantity (ud.cart.getD []) + q) ∧
    (add_item_to_cart ud flavor sauce q p).cart
        = some (ud.cart.getD [] ++
            [{ flavor := flavor, sauce := sauce, quantity := q, unit_price := p,
               item_total := (q : ℚ) * p }]) ∧
    (add_item_to_cart ud flavor sauce q p).total_price
        = some (cartTotalPrice (ud.cart.getD [] ++
            [{ flavor := flavor, sauce := sauce, quantity := q, unit_price := p,
               item_total := (q : ℚ) * p }])) ∧
    (add_item_to_cart ud flavor sauce q p).total_quantity
        = some (cartTotalQuantity (ud.cart.getD [] ++
            [{ flavor := flavor, sauce := sauce, quantity := q, unit_price := p,
               item_total := (q : ℚ) * p }])) := by
  refine ⟨?_, ?_, rfl, rfl, rfl⟩ <;>
    simp [add_item_to_cart, cartTotalPrice, cartTotalQuantity]

theorem C2_cart_append_totals_witness :
    (1 : Int) ≤ 2 ∧ (0 : ℚ) ≤ 9 ∧
    (add_item_to_cart UserData.empty (.str "Protein Acai") (.str "Sauce Options: Honey") 2 9).total_price
        = some (cartTotalPrice ((UserData.empty : UserData).cart.getD []) + (2 : ℚ) * 9) :=
  ⟨by norm_num, by norm_num,
    (C2_cart_append_totals UserData.empty (.str "Protein Acai") (.str "Sauce Options: Honey")
      2 9 (by norm_num) (by norm_num)).1⟩

/-- C6: for every backend result (a raised exception included), the menu
load returns a non-empty group list in which every group has at least one
option; and when sanitization dropped every group, the single-group,
single-option default is substituted. -/
theorem C6_menu_load_never_degenerate (backendGroups : Option (List RawMenuGroup)) :
    get_menu_data backendGroups ≠ [] ∧
    (∀ g ∈ get_menu_data backendGroups, g.options ≠ []) ∧
    (sanitizeMenuGroups (backendGroups.getD defaultMenuGroups) 0 = [] →
      get_menu_data backendGroups = [fallbackSingleGroup]) := by
  have heq : get_menu_data backendGroups =
      (if sanitizeMenuGroups (backendGroups.getD defaultMenuGroups) 0 = []
        then [fallbackSingleGroup]
        else sanitizeMenuGroups (backendGroups.getD defaultMenuGroups) 0) := by
    cases backendGroups <;> rfl
  refine ⟨?_, ?_, ?_⟩
  · rw [heq]
    split
    · simp
    · assumption
  · intro g hg
    rw [heq] at hg
    split at hg
    · rcases List.mem_singleton.mp hg with rfl
      simp [fallbackSingleGroup]
    · exact sanitize_options_ne_nil _ 0 g hg
  · intro hempty
    rw [heq, if_pos hempty]

theorem C6_menu_load_never_degenerate_witness :
    fallbackSingleGroup ∈ get_menu_data (some [{ id := none, key := none, title := none, options := some [] }]) ∧
    fallbackSingleGroup.options ≠ [] :=
  ⟨by decide,
    (C6_menu_load_never_degenerate
      (some [{ id := none, key := none, title := none, options := some [] }])).2.1
      fallbackSingleGroup (by decide)⟩

/-- C10: the inline keyboard builder uses each raw option value as the
button label (with its `menu_groupIndex_optionIndex` callback data); a
priced dict option is therefore labelled with the dict itself, which is
never the option's bare name string. -/
theorem C10_keyboard_uses_raw_option (group : MenuGroup) (index i : Nat)
    (h : i < group.options.length) :
    (build_menu_keyboard group index)[i]? =
      some ⟨group.options[i], "menu_" ++ toString index ++ "_" ++ toString i⟩ ∧
    (∀ n p, group.options[i] = MenuValue.dict n p →
      (MenuValue.dict n p : MenuValue) ≠ MenuValue.str (pyOrStr n "")) := by
  constructor
  · have hlen : i < (group.options.enum.map
        (fun p => (⟨p.2, "menu_" ++ toString index ++ "_" ++ toString p.1⟩ : InlineButton))).length := by
      simpa using h
    rw [build_menu_keyboard, List.getElem?_append, if_pos hlen]
    simp [List.getElem?_map, List.getElem?_enum, List.getElem?_eq_getElem h]
  · intro n p _ hcontra
    exact MenuValue.noConfusion hcontra

theorem C10_keyboard_uses_raw_option_witness :
    0 < fallbackSingleGroup.options.length ∧
    (build_menu_keyboard fallbackSingleGroup 0)[0]? =
      some ⟨fallbackSingleGroup.options[0], "menu_" ++ toString 0 ++ "_" ++ toString 0⟩ :=
  ⟨by decide, (C10_keyboard_uses_raw_option fallbackSingleGroup 0 0 (by decide)).1⟩

/-- C8: in the REGISTER_NAME and REGISTER_PHONE states, input equal to a
reserved control keyword triggers the corresponding global action (cancel
via cancel_order, restart via clear-and-end) before any length validation
is consulted. -/
theorem C8_control_keywords_short_circuit (b : Backend) (ud : UserData) (text : String) :
    (pyStrip text = CANCEL_ORDER_BUTTON_TEXT →
      register_name ud text = cancel_order ud ∧
      register_phone b ud text = some (cancel_order ud)) ∧
    (pyStrip text = RESTART_ORDER_BUTTON_TEXT →
      register_name ud text = (UserData.empty, .stop) ∧
      register_phone b ud text = some (UserData.empty, .stop)) := by
  have hne : RESTART_ORDER_BUTTON_TEXT ≠ CANCEL_ORDER_BUTTON_TEXT := by decide
  constructor
  · intro h
    constructor <;> simp [register_name, register_phone, maybe_handle_control_text, h]
  · intro h
    constructor <;> simp [register_name, register_phone, maybe_handle_control_text, h, hne]

theorem C8_control_keywords_short_circuit_witness :
    pyStrip "❌ Cancel Order" = CANCEL_ORDER_BUTTON_TEXT ∧
    register_name UserData.empty "❌ Cancel Order" = cancel_order UserData.empty :=
  ⟨by decide,
    ((C8_control_keywords_short_circuit {} UserData.empty "❌ Cancel Order").1 (by decide)).1⟩

/-- C1 (amended): after one full traversal with a truthy choice recorded for
every one of the N cached menu groups, `flavor` is the *raw* group-0 choice
value (equal to the option's name only for plain labels), and `sauce` is the
semicolon-join of the remaining groups' "title: value" pairs when N ≥ 2;
when N = 1, `sauce` falls back to the raw group-0 choice value — not the
empty string. -/
theorem C1_full_traversal_flavor_sauce (b : Backend) (ud : UserData)
    (g0 : MenuGroup) (gs : List MenuGroup) (c0 : MenuValue) (cs : List MenuValue)
    (choices : List (Nat × MenuValue))
    (hmenu : ud.menu_groups = some (g0 :: gs))
    (hch : ud.menu_choices = some choices)
    (hlen : cs.length = gs.length)
    (hlookup : ∀ i, dictGet choices i = (c0 :: cs)[i]?)
    (htruthy : ∀ v ∈ c0 :: cs, v.truthy = true) :
    (accumulate_menu_selections b ud).menu_selections
        = some (selectionOf g0 0 c0 :: zipSelWith gs cs 1) ∧
    (accumulate_menu_selections b ud).flavor = some c0 ∧
    (gs = [] → (accumulate_menu_selections b ud).sauce = some c0) ∧
    (gs ≠ [] → (accumulate_menu_selections b ud).sauce
        = some (.str (String.intercalate "; "
            ((zipSelWith gs cs 1).map (fun sel => sel.title ++ ": " ++ sel.value.pyStr))))) := by
  have hg : get_menu_groups b ud = (ud, g0 :: gs) := by
    simp [get_menu_groups, hmenu]
  have hsel : collectSelections (g0 :: gs) (dictGet choices) 0
      = zipSelWith (g0 :: gs) (c0 :: cs) 0 := by
    apply collectSelections_total
    · simpa using hlen
    · intro i
      simpa using hlookup i
    · exact htruthy
  have hacc : accumulate_menu_selections b ud =
      { ud with
        menu_selections := some (selectionOf g0 0 c0 :: zipSelWith gs cs 1),
        flavor := some (deriveFlavor (selectionOf g0 0 c0 :: zipSelWith gs cs 1)),
        sauce := some (deriveSauce (selectionOf g0 0 c0 :: zipSelWith gs cs 1)) } := by
    simp [accumulate_menu_selections, hg, hch, hsel, zipSelWith]
  refine ⟨?_, ?_, ?_, ?_⟩
  · rw [hacc]
  · rw [hacc]
    simp [deriveFlavor, selectionOf]
  · intro hnil
    subst hnil
    have hcs : cs = [] := by simpa using hlen
    subst hcs
    rw [hacc]
    simp [deriveSauce, zipSelWith, selectionOf]
  · intro hne
    cases gs with
    | nil => exact absurd rfl hne
    | cons g1 gs' =>
      cases cs with
      | nil => simp at hlen
      | cons c1 cs' =>
        rw [hacc]
        simp [deriveSauce, zipSelWith]

theorem C1_full_traversal_witness :
    ((UserData.empty : UserData).menu_groups = none) ∧
    (accumulate_menu_selections {}
      { menu_groups :=
          some [fallbackSingleGroup,
                { id := some "sauce", key := some "sauce", title := some "Sauce Options", options := [.str "Honey"] }],
        menu_choices := some [(0, .dict (some "Classic Acai") (some 8)), (1, .str "Honey")] }).flavor
      = some (.dict (some "Classic Acai") (some 8)) :=
  ⟨rfl,
    (C1_full_traversal_flavor_sauce {}
      { menu_groups :=
          some [fallbackSingleGroup,
                { id := some "sauce", key := some "sauce", title := some "Sauce Options", options := [.str "Honey"] }],
        menu_choices := some [(0, .dict (some "Classic Acai") (some 8)), (1, .str "Honey")] }
      fallbackSingleGroup
      [{ id := some "sauce", key := some "sauce", title := some "Sauce Options", options := [.str "Honey"] }]
      (.dict (some "Classic Acai") (some 8)) [.str "Honey"]
      [(0, .dict (some "Classic Acai") (some 8)), (1, .str "Honey")]
      rfl rfl rfl
      (by intro i
          match i with
          | 0 => rfl
          | 1 => rfl
          | (n + 2) => simp [dictGet])
      (by decide)).2.1⟩

theorem C1_counterexample :
    ((accumulate_menu_selections {}
        { menu_groups := some (get_menu_data none),
          menu_choices := some [(0, .dict (some "Protein Acai") (some 9)), (1, .str "Honey")] }).flavor
      = some (.dict (some "Protein Acai") (some 9)) ∧
     (accumulate_menu_selections {}
        { menu_groups := some (get_menu_data none),
          menu_choices := some [(0, .dict (some "Protein Acai") (some 9)), (1, .str "Honey")] }).flavor
      ≠ some (.str "Protein Acai")) ∧
    ((accumulate_menu_selections {}
        { menu_groups :=
            some [{ id := some "g", key := some "g", title := some "Flavor", options := [.str "Classic"] }],
          menu_choices := some [(0, .str "Classic")] }).sauce
      = some (.str "Classic") ∧
     (accumulate_menu_selections {}
        { menu_groups :=
            some [{ id := some "g", key := some "g", title := some "Flavor", options := [.str "Classic"] }],
          menu_choices := some [(0, .str "Classic")] }).sauce
      ≠ some (.str "")) := by
  refine ⟨⟨?_, by decide⟩, ⟨?_, by decide⟩⟩ <;> rfl

/-- C3 (amended): cancellation through the reserved keyword or /cancel
(cancel_order) clears the whole conversation context from every state; the
inline cancel button of each callback state ends the conversation but leaves
the context untouched; and start_order clears the context at entry, so a
subsequent order start behaves identically regardless of any leftover
context. -/
theorem C3_cancellation_paths (b : Backend) (ud : UserData) (msgId : Nat) (now : Timestamp) :
    cancel_order ud = (UserData.empty, .stop) ∧
    select_delivery b ud "cancel" = (ud, .stop) ∧
    handle_menu_selection b ud "cancel" = (ud, .stop) ∧
    select_quantity b ud "cancel" = some (ud, .stop) ∧
    handle_add_more_items b ud "cancel" = (ud, .stop) ∧
    confirm_order ud "cancel" now = (ud, .stop) ∧
    (∀ ud', start_order b msgId ud = start_order b msgId ud') := by
  refine ⟨?_, rfl, rfl, rfl, rfl, rfl, fun ud' => rfl⟩
  cases h : pyTruthy ud.order_id <;> simp [cancel_order, cancel_payment, h]

theorem C3_counterexample :
    select_delivery {}
        { delivery := some { id := "1", location := some "Park", delivery_datetime := none } }
        "cancel"
      = ({ delivery := some { id := "1", location := some "Park", delivery_datetime := none } },
         .stop) ∧
    ({ delivery := some { id := "1", location := some "Park", delivery_datetime := none } }
        : UserData) ≠ UserData.empty := by
  exact ⟨rfl, by decide⟩

/-- C4 (amended): when no active delivery session exists, starting an order
sends the apology and ends immediately; the context was cleared at entry,
and what remains in it afterwards is exactly the freshly cached menu data
and the order-type marker — no delivery, cart, selection or registration
state. -/
theorem C4_no_active_sessions_abort (b : Backend) (msgId : Nat) (ud : UserData)
    (h : b.activeDeliveries = []) :
    start_order b msgId ud =
      ({ UserData.empty with
          order_type := some "delivery",
          menu_groups := some (get_menu_data b.menuBackend),
          menu_pricing := some [] },
       [noActiveDeliveriesMsg], .stop) := by
  simp [start_order, cache_menu_data, h]

theorem C4_no_active_sessions_abort_witness :
    ({ activeDeliveries := [] } : Backend).activeDeliveries = [] ∧
    start_order { activeDeliveries := [] } 0 UserData.empty =
      ({ UserData.empty with
          order_type := some "delivery",
          menu_groups := some (get_menu_data none),
          menu_pricing := some [] },
       [noActiveDeliveriesMsg], .stop) :=
  ⟨rfl, C4_no_active_sessions_abort { activeDeliveries := [] } 0 UserData.empty rfl⟩

theorem C4_counterexample :
    (start_order { activeDeliveries := [] } 0 UserData.empty).2.2 = .stop ∧
    (start_order { activeDeliveries := [] } 0 UserData.empty).2.1 = [noActiveDeliveriesMsg] ∧
    (start_order { activeDeliveries := [] } 0 UserData.empty).1 ≠ UserData.empty ∧
    (start_order { activeDeliveries := [] } 0 UserData.empty).1.order_type = some "delivery" := by
  refine ⟨rfl, rfl, by decide, rfl⟩

/-- C5 (amended): for a delivery order, when the order-creation call raises,
the apology quotes the order id; when it merely returns failure, the fixed
contact-staff apology — which names no order id — is sent; either way the
context is cleared and the conversation ends. -/
theorem C5_order_write_failure_replies (pb : PaymentBackend) (ud : UserData) (oid : String)
    (horder : ud.order_id = some oid)
    (htype : ud.order_type = some "delivery")
    (hupsert : pb.userUpsertRaises = false) :
    (pb.createOrder = .raised →
      (receive_payment_screenshot pb ud .photo).1
        = ["✅ Payment screenshot received!", "⏳ Processing your order...",
           errorProcessingMsg oid] ∧
      strContains (errorProcessingMsg oid) oid) ∧
    (pb.createOrder = .failure →
      (receive_payment_screenshot pb ud .photo).1
        = ["✅ Payment screenshot received!", "⏳ Processing your order...",
           issueLoggingMsg]) ∧
    (receive_payment_screenshot pb ud .photo).2.1 = UserData.empty ∧
    (receive_payment_screenshot pb ud .photo).2.2 = .stop := by
  have hpd : ("delivery" : String) ≠ "pickup" := by decide
  have hrep : receive_payment_screenshot pb ud .photo
      = (["✅ Payment screenshot received!", "⏳ Processing your order...",
          paymentFinalReply pb ud oid], UserData.empty, .stop) := by
    simp [receive_payment_screenshot, horder]
  refine ⟨?_, ?_, by rw [hrep], by rw [hrep]⟩
  · intro hc
    constructor
    · rw [hrep]
      simp [paymentFinalReply, hupsert, htype, hpd, hc]
    · refine ⟨("⚠️ Error processing order. Please contact the admin with your order ID: `").data,
        ("`").data, ?_⟩
      simp [errorProcessingMsg]
  · intro hc
    rw [hrep]
    simp [paymentFinalReply, hupsert, htype, hpd, hc]

theorem C5_order_write_failure_replies_witness :
    ({ order_type := some "delivery", order_id := some "20250101120000" } : UserData).order_id
        = some "20250101120000" ∧
    (receive_payment_screenshot { createOrder := .failure }
        { order_type := some "delivery", order_id := some "20250101120000" } .photo).1
      = ["✅ Payment screenshot received!", "⏳ Processing your order...", issueLoggingMsg] :=
  ⟨rfl,
    ((C5_order_write_failure_replies { createOrder := .failure }
        { order_type := some "delivery", order_id := some "20250101120000" }
        "20250101120000" rfl rfl rfl).2.1 rfl)⟩

set_option maxRecDepth 40000 in
theorem C5_counterexample :
    (receive_payment_screenshot { createOrder := .failure }
        { order_type := some "delivery", order_id := some "20250101120000" } .photo).1
      = ["✅ Payment screenshot received!", "⏳ Processing your order...", issueLoggingMsg] ∧
    ¬ strContains issueLoggingMsg "20250101120000" := by
  exact ⟨rfl, by decide⟩

theorem qty_callback_parses (k : Nat) (h1 : 1 ≤ k) (h2 : k ≤ 5) :
    pyInt (pyReplace ("qty_" ++ toString k) "qty_") = some (k : Int) := by
  interval_cases k <;> decide

theorem qty_callback_ne_cancel (k : Nat) (h1 : 1 ≤ k) (h2 : k ≤ 5) :
    ("qty_" ++ toString k) ≠ "cancel" := by
  interval_cases k <;> decide

/-- C7 (amended): every button the quantity keyboard offers (qty_1 … qty_5)
is accepted and appends a cart item whose quantity is exactly that button's
integer, which lies in 1..5. (As stated over *every* accepted event the
claim fails: the handler also accepts callback data never offered by the
keyboard, e.g. "qty_0", and then appends a quantity below 1 — see the
counterexample.) -/
theorem C7_keyboard_quantities_in_range (b : Backend) (ud : UserData) (k : Nat)
    (h1 : 1 ≤ k) (h2 : k ≤ 5) :
    (toString k ++ " bowl(s)", "qty_" ++ toString k) ∈ prompt_quantity_keyboard ∧
    (select_quantity b ud ("qty_" ++ toString k)).map
        (fun r => ((r.1.cart.getD []).getLast?.map (fun item => item.quantity), r.2))
      = some (some (k : Int), .state .ADD_MORE_ITEMS) ∧
    1 ≤ (k : Int) ∧ (k : Int) ≤ 5 := by
  refine ⟨?_, ?_, by exact_mod_cast h1, by exact_mod_cast h2⟩
  · interval_cases k <;> decide
  · rw [select_quantity.eq_def, if_neg (qty_callback_ne_cancel k h1 h2),
      qty_callback_parses k h1 h2]
    cases hmp : ud.main_option_price <;>
      simp [add_item_to_cart, List.getLast?_concat]

theorem C7_keyboard_quantities_in_range_witness :
    (1 : Nat) ≤ 2 ∧ (2 : Nat) ≤ 5 ∧
    (select_quantity {} UserData.empty ("qty_" ++ toString 2)).map
        (fun r => ((r.1.cart.getD []).getLast?.map (fun item => item.quantity), r.2))
      = some (some (2 : Int), .state .ADD_MORE_ITEMS) :=
  ⟨by norm_num, by norm_num,
    (C7_keyboard_quantities_in_range {} UserData.empty 2 (by norm_num) (by norm_num)).2.1⟩

theorem C7_counterexample :
    (select_quantity {}
        { menu_groups := some [fallbackSingleGroup], main_option_price := some 8 } "qty_0").map
        (fun r => ((r.1.cart.getD []).map (fun item => item.quantity), r.2))
      = some ([0], .state .ADD_MORE_ITEMS) ∧
    ¬ (1 ≤ (0 : Int)) := by
  exact ⟨rfl, by decide⟩

theorem digitChar_inj_lt10 (a b : Nat) (ha : a < 10) (hb : b < 10)
    (h : Nat.digitChar a = Nat.digitChar b) : a = b := by
  have hfin : ∀ x y : Fin 10, Nat.digitChar x = Nat.digitChar y → x = y := by decide
  exact congrArg Fin.val (hfin ⟨a, ha⟩ ⟨b, hb⟩ h)

theorem generate_delivery_id_inj (t₁ t₂ : Timestamp)
    (hy₁ : t₁.year < 10000) (hmo₁ : t₁.month < 100) (hd₁ : t₁.day < 100)
    (hh₁ : t₁.hour < 100) (hmi₁ : t₁.minute < 100) (hs₁ : t₁.second < 100)
    (hy₂ : t₂.year < 10000) (hmo₂ : t₂.month < 100) (hd₂ : t₂.day < 100)
    (hh₂ : t₂.hour < 100) (hmi₂ : t₂.minute < 100) (hs₂ : t₂.second < 100)
    (h : generate_delivery_id t₁ = generate_delivery_id t₂) :
    t₁.year = t₂.year ∧ t₁.month = t₂.month ∧ t₁.day = t₂.day ∧
    t₁.hour = t₂.hour ∧ t₁.minute = t₂.minute ∧ t₁.second = t₂.second := by
  have hl : (pad4 t₁.year ++ pad2 t₁.month ++ pad2 t₁.day
      ++ pad2 t₁.hour ++ pad2 t₁.minute ++ pad2 t₁.second)
      = (pad4 t₂.year ++ pad2 t₂.month ++ pad2 t₂.day
      ++ pad2 t₂.hour ++ pad2 t₂.minute ++ pad2 t₂.second) :=
    congrArg String.data h
  simp only [pad4, pad2, List.cons_append, List.nil_append, List.cons.injEq, and_true] at hl
  obtain ⟨ey1, ey2, ey3, ey4, emo1, emo2, ed1, ed2, eh1, eh2, emi1, emi2, es1, es2⟩ := hl
  have y1 := digitChar_inj_lt10 _ _ (by omega) (by omega) ey1
  have y2 := digitChar_inj_lt10 _ _ (by omega) (by omega) ey2
  have y3 := digitChar_inj_lt10 _ _ (by omega) (by omega) ey3
  have y4 := digitChar_inj_lt10 _ _ (by omega) (by omega) ey4
  have mo1 := digitChar_inj_lt10 _ _ (by omega) (by omega) emo1
  have mo2 := digitChar_inj_lt10 _ _ (by omega) (by omega) emo2
  have d1 := digitChar_inj_lt10 _ _ (by omega) (by omega) ed1
  have d2 := digitChar_inj_lt10 _ _ (by omega) (by omega) ed2
  have h1 := digitChar_inj_lt10 _ _ (by omega) (by omega) eh1
  have h2 := digitChar_inj_lt10 _ _ (by omega) (by omega) eh2
  have mi1 := digitChar_inj_lt10 _ _ (by omega) (by omega) emi1
  have mi2 := digitChar_inj_lt10 _ _ (by omega) (by omega) emi2
  have s1 := digitChar_inj_lt10 _ _ (by omega) (by omega) es1
  have s2 := digitChar_inj_lt10 _ _ (by omega) (by omega) es2
  refine ⟨by omega, by omega, by omega, by omega, by omega, by omega⟩

/-- C9 (amended): a confirmation stores `generate_delivery_id now` as the
order id, and two confirmations generate distinct ids whenever their
timestamps differ at second resolution (in range); two confirmations within
the same wall-clock second generate the *same* id — see the
counterexample. -/
theorem C9_order_ids_distinct_across_seconds (ud₁ ud₂ : UserData) (d₁ d₂ : String)
    (t₁ t₂ : Timestamp)
    (hd₁ : d₁ ≠ "cancel") (hd₂ : d₂ ≠ "cancel")
    (hy₁ : t₁.year < 10000) (hmo₁ : t₁.month < 100) (hda₁ : t₁.day < 100)
    (hh₁ : t₁.hour < 100) (hmi₁ : t₁.minute < 100) (hs₁ : t₁.second < 100)
    (hy₂ : t₂.year < 10000) (hmo₂ : t₂.month < 100) (hda₂ : t₂.day < 100)
    (hh₂ : t₂.hour < 100) (hmi₂ : t₂.minute < 100) (hs₂ : t₂.second < 100)
    (hne : (t₁.year, t₁.month, t₁.day, t₁.hour, t₁.minute, t₁.second)
        ≠ (t₂.year, t₂.month, t₂.day, t₂.hour, t₂.minute, t₂.second)) :
    (confirm_order ud₁ d₁ t₁).1.order_id = some (generate_delivery_id t₁) ∧
    (confirm_order ud₂ d₂ t₂).1.order_id = some (generate_delivery_id t₂) ∧
    (confirm_order ud₁ d₁ t₁).1.order_id ≠ (confirm_order ud₂ d₂ t₂).1.order_id := by
  have e₁ : (confirm_order ud₁ d₁ t₁).1.order_id = some (generate_delivery_id t₁) := by
    simp [confirm_order, hd₁]
  have e₂ : (confirm_order ud₂ d₂ t₂).1.order_id = some (generate_delivery_id t₂) := by
    simp [confirm_order, hd₂]
  refine ⟨e₁, e₂, ?_⟩
  rw [e₁, e₂]
  intro hcontra
  have hgen : generate_delivery_id t₁ = generate_delivery_id t₂ := by
    simpa using hcontra
  obtain ⟨ha, hb, hc, hd, he, hf⟩ := generate_delivery_id_inj t₁ t₂
    hy₁ hmo₁ hda₁ hh₁ hmi₁ hs₁ hy₂ hmo₂ hda₂ hh₂ hmi₂ hs₂ hgen
  exact hne (by rw [ha, hb, hc, hd, he, hf])

theorem C9_order_ids_distinct_witness :
    ("confirm" : String) ≠ "cancel" ∧
    (confirm_order UserData.empty "confirm" ⟨2025, 1, 1, 12, 0, 0, 0⟩).1.order_id
      ≠ (confirm_order UserData.empty "confirm" ⟨2025, 1, 1, 12, 0, 1, 0⟩).1.order_id :=
  ⟨by decide,
    (C9_order_ids_distinct_across_seconds UserData.empty UserData.empty "confirm" "confirm"
      ⟨2025, 1, 1, 12, 0, 0, 0⟩ ⟨2025, 1, 1, 12, 0, 1, 0⟩
      (by decide) (by decide)
      (by norm_num) (by norm_num) (by norm_num) (by norm_num) (by norm_num) (by norm_num)
      (by norm_num) (by norm_num) (by norm_num) (by norm_num) (by norm_num) (by norm_num)
      (by decide)).2.2⟩

theorem C9_counterexample :
    (⟨2025, 1, 1, 12, 0, 0, 0⟩ : Timestamp) ≠ ⟨2025, 1, 1, 12, 0, 0, 500000⟩ ∧
    (confirm_order UserData.empty "confirm" ⟨2025, 1, 1, 12, 0, 0, 0⟩).1.order_id
      = (confirm_order { order_type := some "delivery" } "confirm"
          ⟨2025, 1, 1, 12, 0, 0, 500000⟩).1.order_id ∧
    (confirm_order UserData.empty "confirm" ⟨2025, 1, 1, 12, 0, 0, 0⟩).2
      = .state .PAYMENT := by
  exact ⟨by decide, rfl, rfl⟩

end AcaiBot
